import Mathlib

/-!
Verification of the time-interval segmentation and file-assembly engine of
PollyXT-SCC-Pipelines (`pollyxt_pipelines/polly_to_scc/pollyxt.py`,
`pollyxt_pipelines/polly_to_scc/scc_netcdf.py` and
`pollyxt_pipelines/utils.py`), as a shallow embedding.

Conventions of the embedding:
* points in time are natural numbers of seconds (Python `datetime` values are
  totally ordered and all arithmetic used by the code is addition of
  `timedelta` seconds, flooring to the hour, and replacing the minute field);
* a calendar day code `YYYYMMDD` is decoded to a day number through the
  standard civil-from-days arithmetic, mirroring
  `datetime.strptime(str(day), "%Y%m%d")` on eight-digit day codes;
* numpy arrays are lists; a value that may be either a 0-dimensional or a
  1-dimensional array is an `NpArr`;
* exceptions are `Except` values.
-/

/-! ## Timestamp codec (`pollyxt.py`, `polly_date_to_datetime`) -/

/-- Gregorian leap-year rule, as used by Python `datetime`. -/
def isLeapYear (y : Nat) : Bool :=
  (y % 4 == 0 && y % 100 != 0) || (y % 400 == 0)

/-- Number of days of month `m` in year `y`. -/
def daysInMonth (y m : Nat) : Nat :=
  if m == 2 then (if isLeapYear y then 29 else 28)
  else if m == 4 || m == 6 || m == 9 || m == 11 then 30
  else 31

/-- Whether an integer day code decodes under
`datetime.strptime(str(day), "%Y%m%d")`: the decimal rendering must have
exactly eight digits `YYYYMMDD` naming a calendar date. -/
def validDayCode (c : Nat) : Bool :=
  let y := c / 10000
  let m := c / 100 % 100
  let d := c % 100
  10000000 ≤ c && c ≤ 99999999 && 1 ≤ m && m ≤ 12 && 1 ≤ d && d ≤ daysInMonth y m

/-- Day number of a calendar date (days since 0000-03-01, civil-from-days
arithmetic). Only differences of day numbers matter to the embedding. -/
def dayNumberOfDate (y m d : Nat) : Nat :=
  let y1 := if m ≤ 2 then y - 1 else y
  let era := y1 / 400
  let yoe := y1 % 400
  let mp := (m + 9) % 12
  let doy := (153 * mp + 2) / 5 + d - 1
  let doe := yoe * 365 + yoe / 4 - yoe / 100 + doy
  era * 146097 + doe

/-- Decode a `YYYYMMDD` day code to a day number; `none` models the
`ValueError` raised by `strptime` on an undecodable code. -/
def decodeDay (c : Nat) : Option Nat :=
  if validDayCode c then
    some (dayNumberOfDate (c / 10000) (c / 100 % 100) (c % 100))
  else none

/-- `polly_date_to_datetime`: a two-integer PollyXT timestamp (day code,
seconds since start of day) decoded to a point in time in seconds. -/
def decodeTimestamp (c s : Nat) : Option Nat :=
  (decodeDay c).map (fun dn => dn * 86400 + s)

/-- `get_measurement_period` (`pollyxt.py` lines 68-74) applied to a
two-column day/seconds time table: the date is parsed once, from the first
row's day code; the returned start adds the first row's seconds and the
returned end adds the last row's seconds to that same date. -/
def get_measurement_period (table : List (Nat × Nat)) : Option (Nat × Nat) :=
  match table.head?, table.getLast? with
  | some r0, some rl =>
    match decodeDay r0.1 with
    | some dn => some (dn * 86400 + r0.2, dn * 86400 + rl.2)
    | none => none
  | _, _ => none

/-! ## Repository index (`PollyXTRepository.__init__`) -/

/-- One entry of the repository index: (timestamp, row index within the
source file, source file identity). -/
structure IndexEntry where
  timestamp : Nat
  rowIndex : Nat
  path : Nat
deriving DecidableEq, Repr

/-- Errors of repository construction. -/
inductive RepoError where
  | noFilesFound : RepoError
  | badMeasurementTime (filename : Nat) (value : Nat × Nat) : RepoError
deriving DecidableEq, Repr

/-- A candidate raw file: its identity and its `measurement_time` rows. -/
structure RawFile where
  name : Nat
  rows : List (Nat × Nat)
deriving DecidableEq, Repr

/-- Scan the rows of one file (`pollyxt.py` lines 142-149): every row's
timestamp is decoded in order; the first row whose day code fails to decode
aborts the scan with `BadMeasurementTime(path, raw value)`. -/
def scanRows (name : Nat) : List (Nat × Nat) → Nat → Except RepoError (List IndexEntry)
  | [], _ => Except.ok []
  | r :: rest, i =>
    match decodeTimestamp r.1 r.2 with
    | none => Except.error (RepoError.badMeasurementTime name r)
    | some ts => (scanRows name rest (i + 1)).map (fun l => ⟨ts, i, name⟩ :: l)

/-- Scan every candidate file in order, concatenating the produced index
rows; the first failing file aborts construction. -/
def scanAll : List RawFile → Except RepoError (List IndexEntry)
  | [] => Except.ok []
  | f :: fs =>
    match scanRows f.name f.rows 0 with
    | Except.error e => Except.error e
    | Except.ok l => (scanAll fs).map (fun l2 => l ++ l2)

/-- Stable ascending insertion by timestamp, modelling
`DataFrame.sort_values("timestamp", ascending=True)`. -/
def insertByTs (x : IndexEntry) : List IndexEntry → List IndexEntry
  | [] => [x]
  | y :: ys => if x.timestamp ≤ y.timestamp then x :: y :: ys else y :: insertByTs x ys

/-- Sort index entries ascending by timestamp. -/
def sortByTs (l : List IndexEntry) : List IndexEntry :=
  l.foldr insertByTs []

/-- `PollyXTRepository.__init__` on the already-enumerated candidate file
list: an empty candidate set fails with `NoFilesFound`; otherwise every row
of every file is decoded and the index is sorted by timestamp. -/
def repoInit (files : List RawFile) : Except RepoError (List IndexEntry) :=
  if files.isEmpty then Except.error RepoError.noFilesFound
  else (scanAll files).map sortByTs

/-! ## Window selection (`PollyXTRepository.get_pollyxt_file`, index part) -/

/-- Errors crossing `convert_pollyxt_file`. -/
inductive ConvErr where
  | noMeasurements : ConvErr
  | timeOutsideFile : ConvErr
  | usageError : ConvErr
  | ioFailure (code : Nat) : ConvErr
deriving DecidableEq, Repr

/-- The index filter of `get_pollyxt_file` (`pollyxt.py` line 180): all
entries with `time_start <= timestamp <= time_end`, both ends closed. -/
def selectWindow (index : List IndexEntry) (ts te : Nat) : List IndexEntry :=
  index.filter (fun r => decide (ts ≤ r.timestamp ∧ r.timestamp ≤ te))

/-- `get_pollyxt_file` restricted to its index arithmetic: raises
`NoMeasurementsInTimePeriod` exactly when the filtered selection is empty,
otherwise succeeds with the selection. -/
def get_pollyxt_file (index : List IndexEntry) (ts te : Nat) :
    Except ConvErr (List IndexEntry) :=
  let targets := selectWindow index ts te
  if targets.isEmpty then Except.error ConvErr.noMeasurements
  else Except.ok targets

/-! ## Raw file reading and assembly (`PollyXTFile`, `get_pollyxt_file`) -/

/-- A numpy value that is either a 0-dimensional (scalar) array or a
1-dimensional array; `np.concatenate` raises `ValueError` when any input is
0-dimensional. -/
inductive NpArr where
  | scalar (v : Int) : NpArr
  | vec (xs : List Int) : NpArr
deriving DecidableEq, Repr

/-- `np.concatenate` along axis 0 over a list of possibly 0-dimensional
arrays: raises (`Except.error`) when the list is empty or when any input is
zero-dimensional, otherwise joins the inputs. -/
def npConcatenate (arrs : List NpArr) : Except Unit (List Int) :=
  if arrs.isEmpty || arrs.any (fun a => match a with
      | NpArr.scalar _ => true
      | NpArr.vec _ => false) then
    Except.error ()
  else
    Except.ok ((arrs.map (fun a => match a with
      | NpArr.scalar _ => []
      | NpArr.vec xs => xs)).flatten)

/-- Python list/array slicing `l[a:b]` for non-negative bounds. -/
def pySlice (l : List α) (a b : Nat) : List α :=
  (l.drop a).take (b - a)

/-- Contents of one raw PollyXT netCDF file, with the variables
`PollyXTFile.__init__` reads: the two-column time table, the 3-D signal
array in (time, points, channels) order, the shot-count table, the zenith
angle (a 0-d or 1-d array), the location coordinates and the calibration
angle vector. -/
structure NcData where
  measurement_time : List (Nat × Nat)
  raw_signal : List (List (List Int))
  measurement_shots : List (List Nat)
  zenith_angle : NpArr
  location_coordinates : List Int
  depol_cal_angle : List Int
deriving DecidableEq, Repr

/-- The fields a constructed `PollyXTFile` object carries. -/
structure PollyData where
  measurement_time : List (Nat × Nat)
  raw_signal : List (List (List Int))
  raw_signal_swap : List (List (List Int))
  measurement_shots : List (List Nat)
  zenith_angle : NpArr
  location_coordinates : List Int
  depol_cal_angle : List Int
  start_index : Nat
  end_index : Nat
  start_date : Nat
  end_date : Nat
deriving DecidableEq, Repr

/-- `PollyXTFile.__init__` (`pollyxt.py` lines 232-276): trims the time
table, signal and shot arrays to `[start : end + 1]`, swaps the signal's
axes 1 and 2, copies zenith angle, location coordinates and the calibration
angle vector untrimmed, and decodes the first and last trimmed rows as
start/end dates. When `nan_calibration` is set, the source computes the
nonzero calibration indices and then evaluates
`self.raw_signal[depol_cal_time[0] : depol_cal_time[-1], :, :] == np.nan`
(`pollyxt.py` line 270) - a comparison expression whose value is discarded,
not an assignment - so no field depends on the flag. -/
def pollyFileInit (nc : NcData) (startOpt endOpt : Option Nat)
    (nanCalibration : Bool) : Except String PollyData :=
  let start := startOpt.getD 0
  let stop := endOpt.getD nc.measurement_time.length
  let mt := pySlice nc.measurement_time start (stop + 1)
  let rs := pySlice nc.raw_signal start (stop + 1)
  let rss := rs.map List.transpose
  let shots := pySlice nc.measurement_shots start (stop + 1)
  let _discarded :=
    if nanCalibration then
      (nc.depol_cal_angle.enum.filter (fun p => p.2 != 0)).map (fun p => p.1)
    else []
  match mt.head?, mt.getLast? with
  | some r0, some rl =>
    match decodeTimestamp r0.1 r0.2, decodeTimestamp rl.1 rl.2 with
    | some sd, some ed =>
      Except.ok
        { measurement_time := mt
          raw_signal := rs
          raw_signal_swap := rss
          measurement_shots := shots
          zenith_angle := nc.zenith_angle
          location_coordinates := nc.location_coordinates
          depol_cal_angle := nc.depol_cal_angle
          start_index := start
          end_index := stop
          start_date := sd
          end_date := ed }
    | _, _ => Except.error "ValueError"
  | _, _ => Except.error "IndexError"

/-- The concatenation step of `PollyXTRepository.get_pollyxt_file`
(`pollyxt.py` lines 195-210) over the per-file objects `f0 :: rest` (the
list is never empty there): the first object is mutated in place; the raw
signal, its swapped view, the time table, the shot table and the
calibration-angle vector are concatenated across files; the zenith angles
are concatenated inside a `try` whose `ValueError` is swallowed, leaving the
first file's value; `location_coordinates` is never touched; `end_date` is
taken from the last file. -/
def concatPollyFiles (f0 : PollyData) (rest : List PollyData) : PollyData :=
  let files := f0 :: rest
  { f0 with
    raw_signal := (files.map PollyData.raw_signal).flatten
    raw_signal_swap := (files.map PollyData.raw_signal_swap).flatten
    measurement_time := (files.map PollyData.measurement_time).flatten
    measurement_shots := (files.map PollyData.measurement_shots).flatten
    zenith_angle :=
      match npConcatenate (files.map PollyData.zenith_angle) with
      | Except.ok v => NpArr.vec v
      | Except.error _ => f0.zenith_angle
    depol_cal_angle := (files.map PollyData.depol_cal_angle).flatten
    end_date := (rest.getLastD f0).end_date }

/-! ## Calibration run detection (`create_scc_calibration_netcdf`) -/

/-- `np.diff` of a 1-d array. -/
def npDiff (l : List Int) : List Int :=
  (l.tail.zip l).map (fun p => p.1 - p.2)

/-- Indices of the nonzero entries of a 1-d array (`np.where(... )[0]`),
ascending, as integers. -/
def nonzeroIdxInt (l : List Int) : List Int :=
  ((l.enum.filter (fun p => p.2 != 0)).map (fun p => (p.1 : Int)))

/-- First calibration-angle transition index at or after
`start_positive + 4 = 6` (`scc_netcdf.py` lines 219-222); `none` models the
`IndexError` of `idx[0]` on an empty filter result. -/
def calibFirstIdx (angles : List Int) : Option Int :=
  ((nonzeroIdxInt (npDiff angles)).filter (fun x => decide (6 ≤ x))).head?

/-- Start/end indices of the +45 and -45 degree calibration cycles after
the length-equalisation of `scc_netcdf.py` lines 218-236, as
(start_positive, end_positive, start_negative, end_negative). The second
re-filtering of `idx` in the source is dead (its result is never used). The
larger period is reduced to match the smaller by moving its end back. -/
def calibBounds (angles : List Int) : Option (Int × Int × Int × Int) :=
  match calibFirstIdx angles with
  | none => none
  | some i0 =>
    let startPositive : Int := 2
    let endPositive := i0
    let positiveLength := endPositive - startPositive
    let startNegative := i0 + 3
    let endNegative := (angles.length : Int) - 3
    let negativeLength := endNegative - startNegative
    if positiveLength > negativeLength then
      some (startPositive, endPositive - (positiveLength - negativeLength),
        startNegative, endNegative)
    else if negativeLength > positiveLength then
      some (startPositive, endPositive, startNegative,
        endNegative - (negativeLength - positiveLength))
    else
      some (startPositive, endPositive, startNegative, endNegative)

/-- Size of the `time` dimension created by `create_scc_calibration_netcdf`
(`scc_netcdf.py` line 241): the positive run's length after
equalisation. -/
def calibTimeDim (angles : List Int) : Option Int :=
  (calibBounds angles).map (fun b => b.2.1 - b.1)

/-- Modelled from the spec: the trimming as the claim words it, with the
longer run truncated symmetrically - half of the excess removed from each
end of the longer run (excess split as `d / 2` at the start and `d - d / 2`
at the end). Everything else is as in `calibBounds`. -/
def calibBoundsSymmetric (angles : List Int) : Option (Int × Int × Int × Int) :=
  match calibFirstIdx angles with
  | none => none
  | some i0 =>
    let startPositive : Int := 2
    let endPositive := i0
    let positiveLength := endPositive - startPositive
    let startNegative := i0 + 3
    let endNegative := (angles.length : Int) - 3
    let negativeLength := endNegative - startNegative
    if positiveLength > negativeLength then
      let d := positiveLength - negativeLength
      some (startPositive + d / 2, endPositive - (d - d / 2),
        startNegative, endNegative)
    else if negativeLength > positiveLength then
      let d := negativeLength - positiveLength
      some (startPositive, endPositive, startNegative + d / 2,
        endNegative - (d - d / 2))
    else
      some (startPositive, endPositive, startNegative, endNegative)

/-! ## Attribute surface of `create_scc_netcdf` (`scc_netcdf.py` 25-182) -/

/-- The attribute names assigned on `self` by `PollyXTFile.__init__`
(`pollyxt.py` lines 247-276), in assignment order. The class-level type
annotations of `PollyXTFile` create no attributes. -/
def pollyXTFileAttrs : List String :=
  ["measurement_time", "raw_signal", "raw_signal_swap", "measurement_shots",
   "zenith_angle", "location_coordinates", "depol_cal_angle",
   "start_index", "end_index", "start_date", "end_date"]

/-- The attribute names `PollyXTRepository.get_pollyxt_file` assigns on the
first file object while assembling (`pollyxt.py` lines 196-208). -/
def concatAssignedAttrs : List String :=
  ["raw_signal", "raw_signal_swap", "measurement_time", "measurement_shots",
   "zenith_angle", "depol_cal_angle", "end_date"]

/-- Attribute set of an assembled file: the constructor's attributes plus
any newly assigned ones (all reassignments hit existing attributes). -/
def assembledFileAttrs : List String :=
  pollyXTFileAttrs ++ concatAssignedAttrs.filter (fun a => !(pollyXTFileAttrs.contains a))

/-- The attribute reads `create_scc_netcdf` performs on `pf`, in evaluation
order, up to and including the first read of `calibration_mask`
(`scc_netcdf.py` line 50 start_date; 58-59 raw_signal; 66-68
start_date/end_date; 85-100 start_date in the sunrise and sunset branches;
102 start_date twice; 159 measurement_time then calibration_mask, inside the
fill of the `Raw_Data_Start_Time` variable). -/
def sccAttrAccesses : List String :=
  ["start_date", "raw_signal", "raw_signal", "start_date", "start_date",
   "end_date", "start_date", "start_date", "start_date", "start_date",
   "measurement_time", "calibration_mask"]

/-- `create_scc_netcdf` as an attribute-lookup process: the first accessed
name not defined on the file object raises `AttributeError` (carrying the
name); only if every access resolves does the function run to completion
and return the (measurement id, output path) pair. -/
def create_scc_netcdf_model (attrs : List String) : Except String Unit :=
  match sccAttrAccesses.find? (fun a => !(attrs.contains a)) with
  | some a => Except.error a
  | none => Except.ok ()

/-! ## Start/end overrides and the conversion loop (`convert_pollyxt_file`,
`utils.date_option_to_datetime`) -/

/-- `datetime.replace(minute=m)` in seconds: the hour part and the
seconds-within-minute part survive, the minute field becomes `m`. -/
def pyReplaceMinute (t m : Nat) : Nat :=
  t / 3600 * 3600 + m * 60 + t % 60

/-- The minutes-only (`XX:MM`) branch of `date_option_to_datetime`
(`utils.py` lines 105-111): replace the minute in `today`; if the result is
in the past, move one hour forward instead. -/
def resolveMinutesOnly (today m : Nat) : Nat :=
  if pyReplaceMinute today m < today then pyReplaceMinute (today + 3600) m
  else pyReplaceMinute today m

/-- The start/end override handling of `convert_pollyxt_file`
(`scc_netcdf.py` lines 426-444) on already-parsed override instants, given
the repository span and the requested interval (all in seconds). Returns
the effective (measurement_start, measurement_end, interval).
Mirrors the source exactly: the start override is validated against the
span; an end override without a start override is a `ValueError`; the end
override's validation compares `end_time < measurement_start` (the already
overridden start) and `measurement_end < start_time` - the second
comparison reads `start_time`, not `end_time`, as in the source. -/
def applyOverrides (repoStart repoEnd interval : Nat)
    (startOpt endOpt : Option Nat) : Except ConvErr (Nat × Nat × Nat) :=
  match startOpt with
  | some st =>
    if st < repoStart || repoEnd < st then Except.error ConvErr.timeOutsideFile
    else
      match endOpt with
      | some et =>
        if et < st || repoEnd < st then Except.error ConvErr.timeOutsideFile
        else Except.ok (st, et, et - st)
      | none => Except.ok (st, repoEnd, interval)
  | none =>
    match endOpt with
    | some _ => Except.error ConvErr.usageError
    | none => Except.ok (repoStart, repoEnd, interval)

/-- The regular-window loop of `convert_pollyxt_file` (`scc_netcdf.py`
lines 447-470), fuel-indexed. `fetch s e` stands for the body of the `try`
block (fetch the window's assembled file and emit it); the loop starts at
`measurement_start`, floors each iteration's start to the top of the hour
when `shouldRound` is set, fetches `[start, start + interval + 30s]`,
catches exactly `NoMeasurementsInTimePeriod` (skipping to the next
interval), propagates every other error, and otherwise records the yielded
window. `none` means the fuel ran out before the loop finished.
`roundStart` is the loop-top flooring of the interval start to the top of
the hour (`interval_start.replace(microsecond=0, second=0, minute=0)`)
applied when the round flag is set. -/
def roundStart (shouldRound : Bool) (s : Nat) : Nat :=
  if shouldRound then s - s % 3600 else s

def convertLoop (fetch : Nat → Nat → Except ConvErr Nat) (shouldRound : Bool)
    (C e : Nat) : Nat → Nat → Option (Except ConvErr (List (Nat × Nat × Nat)))
  | s, 0 => if s < e then none else some (Except.ok [])
  | s, fuel + 1 =>
    if s < e then
      match fetch (roundStart shouldRound s) (roundStart shouldRound s + C + 30) with
      | Except.error ConvErr.noMeasurements =>
        convertLoop fetch shouldRound C e (roundStart shouldRound s + C) fuel
      | Except.error err => some (Except.error err)
      | Except.ok a =>
        match convertLoop fetch shouldRound C e (roundStart shouldRound s + C) fuel with
        | none => none
        | some (Except.error err) => some (Except.error err)
        | some (Except.ok l) =>
          some (Except.ok ((roundStart shouldRound s, roundStart shouldRound s + C, a) :: l))
    else some (Except.ok [])

/-- A fetch in a repository without data gaps: every window succeeds. -/
def alwaysOk : Nat → Nat → Except ConvErr Nat := fun _ _ => Except.ok 0

/-- The loop terminates when some finite fuel completes it. -/
def loopTerminates (fetch : Nat → Nat → Except ConvErr Nat)
    (shouldRound : Bool) (C s e : Nat) : Prop :=
  ∃ fuel, (convertLoop fetch shouldRound C e s fuel).isSome

/-- Concrete calibration-angle vector used for claim C8: transitions at
indices 1 and 8, eighteen samples, positive run [2, 8) and negative run
[11, 15) before equalisation. -/
def calibExampleAngles : List Int :=
  [0, 0, 45, 45, 45, 45, 45, 45, 45, -45, -45, -45, -45, -45, -45, -45, -45, -45]

/-- Concrete one-sample file used for claim C5's witness (first file). -/
def c5FileA : PollyData :=
  { measurement_time := [(20210101, 0)]
    raw_signal := [[[1]]]
    raw_signal_swap := [[[1]]]
    measurement_shots := [[600]]
    zenith_angle := NpArr.scalar 5
    location_coordinates := [10, 20]
    depol_cal_angle := [0]
    start_index := 0
    end_index := 0
    start_date := 0
    end_date := 100 }

/-- Concrete one-sample file used for claim C5's witness (second file). -/
def c5FileB : PollyData :=
  { measurement_time := [(20210101, 30)]
    raw_signal := [[[2]]]
    raw_signal_swap := [[[2]]]
    measurement_shots := [[601]]
    zenith_angle := NpArr.scalar 7
    location_coordinates := [30, 40]
    depol_cal_angle := [45]
    start_index := 0
    end_index := 0
    start_date := 30
    end_date := 200 }

/-! ## Theorems -/

/-- Claim C10: for every input file and every trim range, constructing a
`PollyXTFile` with `nan_calibration=True` yields a raw signal array (and
every other field) identical to constructing it with
`nan_calibration=False`; the blank-out-calibration-periods-with-NaN step of
`PollyXTFile.__init__` never modifies the signal, because the source's
line is a comparison (`==`), not an assignment. -/
theorem C10_nan_calibration_is_noop (nc : NcData) (startOpt endOpt : Option Nat) :
    pollyFileInit nc startOpt endOpt true = pollyFileInit nc startOpt endOpt false := rfl

/-- Claim C2: no attribute named `calibration_mask` is ever defined by
`PollyXTFile.__init__`, nor added by the assembling
`PollyXTRepository.get_pollyxt_file`; consequently `create_scc_netcdf`
halts with an attribute-lookup error on the name `calibration_mask` (the
first undefined name it reads, while filling the time variables) instead
of returning a (measurement id, output path) result. -/
theorem C2_calibration_mask_never_defined :
    pollyXTFileAttrs.contains "calibration_mask" = false ∧
    assembledFileAttrs = pollyXTFileAttrs ∧
    create_scc_netcdf_model pollyXTFileAttrs = Except.error "calibration_mask" ∧
    create_scc_netcdf_model assembledFileAttrs = Except.error "calibration_mask" := by
  refine ⟨rfl, rfl, rfl, rfl⟩

/-- Claim C4 (code bug evidence): with repository span [0, 6000] seconds, a
start override of 600 and an end override of 9600 - far outside the span -
`convert_pollyxt_file`'s validation accepts the pair (its second comparison
reads `measurement_end < start_time` instead of `measurement_end <
end_time`), and the loop then emits the single window [600, 9600] reaching
past the repository end; an end override without a start override is
however rejected eagerly as a usage error. -/
theorem C4_end_override_escapes_validation :
    applyOverrides 0 6000 3600 (some 600) (some 9600) = Except.ok (600, 9600, 9000) ∧
    6000 < 9600 ∧
    convertLoop alwaysOk false 9000 9600 600 1 = some (Except.ok [(600, 9600, 0)]) ∧
    applyOverrides 0 6000 3600 none (some 5000) = Except.error ConvErr.usageError := by
  refine ⟨rfl, by decide, rfl, rfl⟩

/-- Claim C6 counterexample: in a file crossing midnight (first row
2021-01-01 at 86370 s, last row 2021-01-02 at 10 s), `get_measurement_period`
does not return the pair of full decodings of the first and the last row:
the end is computed from the first row's day code. -/
theorem C6_counterexample :
    get_measurement_period [(20210101, 86370), (20210102, 10)] ≠
      (decodeTimestamp 20210101 86370).bind
        (fun a => (decodeTimestamp 20210102 10).map (fun b => (a, b))) := by
  decide

/-- Claim C6 (amended): `get_measurement_period` returns the full decoding
of the first row as start, and the first row's decoded day code plus the
last row's seconds as end; when the first and last rows carry the same day
code this equals the pair of full decodings of the two rows. -/
theorem C6_file_time_span (table : List (Nat × Nat)) (r0 rl : Nat × Nat) (dn : Nat)
    (h0 : table.head? = some r0) (hl : table.getLast? = some rl)
    (hd : decodeDay r0.1 = some dn) :
    get_measurement_period table = some (dn * 86400 + r0.2, dn * 86400 + rl.2) ∧
    (r0.1 = rl.1 →
      get_measurement_period table =
        (decodeTimestamp r0.1 r0.2).bind
          (fun a => (decodeTimestamp rl.1 rl.2).map (fun b => (a, b)))) := by
  constructor
  · unfold get_measurement_period
    rw [h0, hl]
    simp [hd]
  · intro hday
    unfold get_measurement_period decodeTimestamp
    rw [h0, hl, ← hday]
    simp [hd]

/-- Witness for C6_file_time_span at a concrete single-day table. -/
theorem C6_file_time_span_witness :
    ([((20210101 : Nat), (0 : Nat)), (20210101, 300)].head? = some (20210101, 0)) ∧
    ([((20210101 : Nat), (0 : Nat)), (20210101, 300)].getLast? = some (20210101, 300)) ∧
    decodeDay 20210101 = some 738096 ∧
    get_measurement_period [(20210101, 0), (20210101, 300)] =
      some (738096 * 86400 + 0, 738096 * 86400 + 300) := by
  refine ⟨rfl, rfl, by decide, ?_⟩
  exact (C6_file_time_span [(20210101, 0), (20210101, 300)] (20210101, 0)
    (20210101, 300) 738096 rfl rfl (by decide)).1

/-- Claim C8 counterexample: on `calibExampleAngles` the positive run
[2, 8) (length 6) is longer than the negative run [11, 15) (length 4); the
code truncates the positive run at its end to [2, 6), while a symmetric
truncation of the longer run - as the claim words it - would give [3, 7);
the two trimmings disagree. -/
theorem C8_counterexample :
    calibBounds calibExampleAngles = some (2, 6, 11, 15) ∧
    calibBoundsSymmetric calibExampleAngles = some (3, 7, 11, 15) ∧
    calibBounds calibExampleAngles ≠ calibBoundsSymmetric calibExampleAngles := by
  refine ⟨by decide, by decide, by decide⟩

/-- Claim C8 (amended): the detected calibration runs are trimmed to equal
length - the shorter run's length wins and the longer run is truncated at
its end, both start indices being left unchanged - and the emitted
calibration file's `time` dimension is sized to exactly that common
truncated run length. -/
theorem C8_calibration_equalisation (angles : List Int) (i0 : Int)
    (h : calibFirstIdx angles = some i0) :
    ∃ sp ep sn en, calibBounds angles = some (sp, ep, sn, en) ∧
      sp = 2 ∧ sn = i0 + 3 ∧
      ep - sp = en - sn ∧
      ep - sp = min (i0 - 2) ((angles.length : Int) - 3 - (i0 + 3)) ∧
      calibTimeDim angles = some (min (i0 - 2) ((angles.length : Int) - 3 - (i0 + 3))) := by
  have hb : calibBounds angles =
      if i0 - 2 > (angles.length : Int) - 3 - (i0 + 3) then
        some (2, i0 - (i0 - 2 - ((angles.length : Int) - 3 - (i0 + 3))), i0 + 3,
          (angles.length : Int) - 3)
      else if (angles.length : Int) - 3 - (i0 + 3) > i0 - 2 then
        some (2, i0, i0 + 3,
          (angles.length : Int) - 3 - ((angles.length : Int) - 3 - (i0 + 3) - (i0 - 2)))
      else some (2, i0, i0 + 3, (angles.length : Int) - 3) := by
    unfold calibBounds
    rw [h]
  by_cases h1 : i0 - 2 > (angles.length : Int) - 3 - (i0 + 3)
  · rw [if_pos h1] at hb
    refine ⟨_, _, _, _, hb, rfl, rfl, by omega, by omega, ?_⟩
    unfold calibTimeDim
    rw [hb]
    simp only [Option.map_some']
    congr 2
    omega
  · by_cases h2 : (angles.length : Int) - 3 - (i0 + 3) > i0 - 2
    · rw [if_neg h1, if_pos h2] at hb
      refine ⟨_, _, _, _, hb, rfl, rfl, by omega, by omega, ?_⟩
      unfold calibTimeDim
      rw [hb]
      simp only [Option.map_some']
      congr 2
      omega
    · rw [if_neg h1, if_neg h2] at hb
      refine ⟨_, _, _, _, hb, rfl, rfl, by omega, by omega, ?_⟩
      unfold calibTimeDim
      rw [hb]
      simp only [Option.map_some']
      congr 2
      omega

/-- Witness for C8_calibration_equalisation on `calibExampleAngles`. -/
theorem C8_calibration_equalisation_witness :
    calibFirstIdx calibExampleAngles = some 8 ∧
    ∃ sp ep sn en, calibBounds calibExampleAngles = some (sp, ep, sn, en) ∧
      sp = 2 ∧ sn = (8 : Int) + 3 ∧
      ep - sp = en - sn ∧
      ep - sp = min ((8 : Int) - 2) ((calibExampleAngles.length : Int) - 3 - ((8 : Int) + 3)) ∧
      calibTimeDim calibExampleAngles =
        some (min ((8 : Int) - 2) ((calibExampleAngles.length : Int) - 3 - ((8 : Int) + 3))) :=
  ⟨by decide, C8_calibration_equalisation calibExampleAngles 8 (by decide)⟩

/-- Claim C5: for every window assembled from several per-file objects, the
zenith angle (a 0-dimensional array in conformant raw files, so that the
attempted `np.concatenate` raises and is swallowed) and the location
metadata are taken from the first contributing file without concatenation,
while the raw signal array (and its swapped view), the shot-count table,
the timestamp table and the calibration-angle vector are concatenated
across the contributing files. -/
theorem C5_per_file_constants (f0 : PollyData) (rest : List PollyData)
    (h : ∀ f ∈ f0 :: rest, ∃ v, f.zenith_angle = NpArr.scalar v) :
    (concatPollyFiles f0 rest).zenith_angle = f0.zenith_angle ∧
    (concatPollyFiles f0 rest).location_coordinates = f0.location_coordinates ∧
    (concatPollyFiles f0 rest).raw_signal =
      ((f0 :: rest).map PollyData.raw_signal).flatten ∧
    (concatPollyFiles f0 rest).raw_signal_swap =
      ((f0 :: rest).map PollyData.raw_signal_swap).flatten ∧
    (concatPollyFiles f0 rest).measurement_time =
      ((f0 :: rest).map PollyData.measurement_time).flatten ∧
    (concatPollyFiles f0 rest).measurement_shots =
      ((f0 :: rest).map PollyData.measurement_shots).flatten ∧
    (concatPollyFiles f0 rest).depol_cal_angle =
      ((f0 :: rest).map PollyData.depol_cal_angle).flatten := by
  obtain ⟨v, hv⟩ := h f0 (List.mem_cons_self _ _)
  have hany : ((f0 :: rest).map PollyData.zenith_angle).any (fun a => match a with
      | NpArr.scalar _ => true
      | NpArr.vec _ => false) = true := by
    apply List.any_eq_true.mpr
    refine ⟨f0.zenith_angle, ?_, ?_⟩
    · exact List.mem_map_of_mem _ (List.mem_cons_self _ _)
    · rw [hv]
  have hcat : npConcatenate ((f0 :: rest).map PollyData.zenith_angle) =
      Except.error () := by
    unfold npConcatenate
    rw [if_pos]
    rw [hany, Bool.or_true]
  unfold concatPollyFiles
  refine ⟨?_, rfl, rfl, rfl, rfl, rfl, rfl⟩
  dsimp only
  rw [hcat]

/-- Witness for C5_per_file_constants on two concrete one-sample files. -/
theorem C5_per_file_constants_witness :
    (∀ f ∈ c5FileA :: [c5FileB], ∃ v, f.zenith_angle = NpArr.scalar v) ∧
    (concatPollyFiles c5FileA [c5FileB]).zenith_angle = c5FileA.zenith_angle ∧
    (concatPollyFiles c5FileA [c5FileB]).location_coordinates =
      c5FileA.location_coordinates ∧
    (concatPollyFiles c5FileA [c5FileB]).measurement_time =
      ((c5FileA :: [c5FileB]).map PollyData.measurement_time).flatten := by
  have hz : ∀ f ∈ c5FileA :: [c5FileB], ∃ v, f.zenith_angle = NpArr.scalar v := by
    intro f hf
    rcases List.mem_cons.mp hf with h1 | h1
    · exact ⟨5, by rw [h1]; rfl⟩
    · rcases List.mem_cons.mp h1 with h2 | h2
      · exact ⟨7, by rw [h2]; rfl⟩
      · simp at h2
  have hmain := C5_per_file_constants c5FileA [c5FileB] hz
  exact ⟨hz, hmain.1, hmain.2.1, hmain.2.2.2.2.1⟩

/-- On a successful scan every row of the file decodes; on a failure the
error attributes this file's name and one of its undecodable rows. -/
theorem scanRows_spec (name : Nat) :
    ∀ rows i,
      (∃ l, scanRows name rows i = Except.ok l ∧
        ∀ r ∈ rows, decodeTimestamp r.1 r.2 ≠ none) ∨
      (∃ r ∈ rows, decodeTimestamp r.1 r.2 = none ∧
        scanRows name rows i = Except.error (RepoError.badMeasurementTime name r)) := by
  intro rows
  induction rows with
  | nil =>
    intro i
    left
    exact ⟨[], rfl, by simp⟩
  | cons r rest ih =>
    intro i
    rcases hd : decodeTimestamp r.1 r.2 with _ | ts
    · right
      exact ⟨r, List.mem_cons_self _ _, hd, by simp [scanRows, hd]⟩
    · rcases ih (i + 1) with ⟨l, hl, hall⟩ | ⟨r2, hm, hdec, herr⟩
      · left
        refine ⟨⟨ts, i, name⟩ :: l, ?_, ?_⟩
        · simp [scanRows, hd, hl, Except.map]
        · intro r2 hr2
          rcases List.mem_cons.mp hr2 with h1 | h1
          · rw [h1, hd]
            simp
          · exact hall r2 h1
      · right
        exact ⟨r2, List.mem_cons_of_mem _ hm, hdec,
          by simp [scanRows, hd, herr, Except.map]⟩

/-- On a successful whole-repository scan every row of every file decodes;
on failure the error attributes a file of the candidate set and one of its
undecodable rows. -/
theorem scanAll_spec :
    ∀ files : List RawFile,
      (∃ l, scanAll files = Except.ok l ∧
        ∀ f ∈ files, ∀ r ∈ f.rows, decodeTimestamp r.1 r.2 ≠ none) ∨
      (∃ f ∈ files, ∃ r ∈ f.rows, decodeTimestamp r.1 r.2 = none ∧
        scanAll files = Except.error (RepoError.badMeasurementTime f.name r)) := by
  intro files
  induction files with
  | nil =>
    left
    exact ⟨[], rfl, by simp⟩
  | cons f fs ih =>
    rcases scanRows_spec f.name f.rows 0 with ⟨l, hl, hall⟩ | ⟨r, hm, hdec, herr⟩
    · rcases ih with ⟨l2, hl2, hall2⟩ | ⟨f2, hmf, r2, hmr, hdec2, herr2⟩
      · left
        refine ⟨l ++ l2, by simp [scanAll, hl, hl2, Except.map], ?_⟩
        intro f2 hf2 r hr
        rcases List.mem_cons.mp hf2 with h1 | h1
        · exact hall r (h1 ▸ hr)
        · exact hall2 f2 h1 r hr
      · right
        exact ⟨f2, List.mem_cons_of_mem _ hmf, r2, hmr, hdec2,
          by simp [scanAll, hl, herr2, Except.map]⟩
    · right
      exact ⟨f, List.mem_cons_self _ _, r, hm, hdec, by simp [scanAll, herr]⟩

/-- Claim C7: repository construction fails with `NoFilesFound` when the
candidate file set is empty; when any row's day code of any candidate file
does not decode as a calendar date it fails with
`BadMeasurementTime(file, raw value)` attributing an offending file and
raw row of the candidate set; in both failing cases the `Except` is an
error, so no partial repository is returned. -/
theorem C7_repository_construction (files : List RawFile)
    (hbad : ∃ f ∈ files, ∃ r ∈ f.rows, decodeTimestamp r.1 r.2 = none) :
    repoInit [] = Except.error RepoError.noFilesFound ∧
    ∃ f ∈ files, ∃ r ∈ f.rows, decodeTimestamp r.1 r.2 = none ∧
      repoInit files = Except.error (RepoError.badMeasurementTime f.name r) := by
  refine ⟨rfl, ?_⟩
  obtain ⟨f0, hf0, r0, hr0, hdec0⟩ := hbad
  rcases scanAll_spec files with ⟨l, _, hall⟩ | ⟨f, hf, r, hr, hdec, herr⟩
  · exact absurd hdec0 (hall f0 hf0 r0 hr0)
  · refine ⟨f, hf, r, hr, hdec, ?_⟩
    have hne : files.isEmpty = false := by
      cases files with
      | nil => simp at hf
      | cons a l2 => rfl
    unfold repoInit
    rw [hne, herr]
    rfl

/-- Witness for C7_repository_construction: one candidate file whose second
row carries the impossible day code 20211301. -/
theorem C7_repository_construction_witness :
    (∃ f ∈ [RawFile.mk 7 [(20210101, 0), (20211301, 5)]], ∃ r ∈ f.rows,
      decodeTimestamp r.1 r.2 = none) ∧
    repoInit [] = Except.error RepoError.noFilesFound ∧
    (∃ f ∈ [RawFile.mk 7 [(20210101, 0), (20211301, 5)]], ∃ r ∈ f.rows,
      decodeTimestamp r.1 r.2 = none ∧
      repoInit [RawFile.mk 7 [(20210101, 0), (20211301, 5)]] =
        Except.error (RepoError.badMeasurementTime f.name r)) := by
  have hb : ∃ f ∈ [RawFile.mk 7 [(20210101, 0), (20211301, 5)]], ∃ r ∈ f.rows,
      decodeTimestamp r.1 r.2 = none := by
    refine ⟨RawFile.mk 7 [(20210101, 0), (20211301, 5)], by simp, (20211301, 5), ?_, ?_⟩
    · simp
    · decide
  have h := C7_repository_construction [RawFile.mk 7 [(20210101, 0), (20211301, 5)]] hb
  exact ⟨hb, h.1, h.2⟩

/-- Stepping the ceiling count: one window consumes `C` of the remaining
distance. -/
theorem ceil_shift (C d : Nat) (hC : 0 < C) (hd : 1 ≤ d) :
    (d + C - 1) / C = (d - C + C - 1) / C + 1 := by
  have h1 : d + C - 1 = (d - 1) + C := by omega
  rw [h1, Nat.add_div_right _ hC]
  rcases le_or_lt d C with h | h
  · have h2 : d - C + C - 1 = C - 1 := by omega
    have h3 : d - 1 < C := by omega
    have h4 : C - 1 < C := by omega
    rw [h2, Nat.div_eq_of_lt h3, Nat.div_eq_of_lt h4]
  · have h2 : d - C + C - 1 = (d - 1 - C) + C := by omega
    rw [h2, Nat.add_div_right _ hC]
    have h3 : (d - 1) / C = (d - 1 - C) / C + 1 := by
      conv_lhs => rw [show d - 1 = (d - 1 - C) + C by omega]
      rw [Nat.add_div_right _ hC]
    rw [h3]

/-- Without rounding and with every fetch succeeding, the loop started at
`s` with `ceil((e - s) / C)` fuel completes and emits exactly that many
windows. -/
theorem planLen (C : Nat) (hC : 0 < C) (e : Nat) :
    ∀ fuel s, (e - s + C - 1) / C ≤ fuel →
      ∃ l, convertLoop alwaysOk false C e s fuel = some (Except.ok l) ∧
        l.length = (e - s + C - 1) / C := by
  intro fuel
  induction fuel with
  | zero =>
    intro s h
    have h0 : (e - s + C - 1) / C = 0 := Nat.le_zero.mp h
    have h1 : e - s + C - 1 < C := by
      by_contra h2
      push_neg at h2
      have h3 := Nat.one_le_div_iff hC |>.mpr h2
      omega
    have h2 : ¬ s < e := by omega
    exact ⟨[], by simp [convertLoop, h2], by simp [h0]⟩
  | succ n ih =>
    intro s h
    by_cases hse : s < e
    · have hd : 1 ≤ e - s := by omega
      have hstep : (e - s + C - 1) / C = (e - s - C + C - 1) / C + 1 :=
        ceil_shift C (e - s) hC hd
      have hnext : (e - (s + C) + C - 1) / C ≤ n := by
        rw [show e - (s + C) = e - s - C by omega]
        omega
      obtain ⟨l, hl, hlen⟩ := ih (s + C) hnext
      refine ⟨(s, s + C, 0) :: l, ?_, ?_⟩
      · simp only [convertLoop, hse, if_true, alwaysOk, roundStart, if_false,
          Bool.false_eq_true]
        rw [hl]
      · simp only [List.length_cons, hlen]
        rw [show e - (s + C) = e - s - C by omega, hstep]
    · refine ⟨[], by simp [convertLoop, hse], ?_⟩
      have h0 : e - s = 0 := by omega
      rw [h0]
      simp [Nat.div_eq_of_lt (show C - 1 < C by omega)]

/-- With the round flag set and a cadence of at least one hour, each
iteration strictly advances the interval start, so some fuel finishes the
loop. -/
theorem roundTermAux (C e : Nat) (hC : 3600 ≤ C) :
    ∀ d s, e - s ≤ d → ∃ fuel, (convertLoop alwaysOk true C e s fuel).isSome := by
  intro d
  induction d with
  | zero =>
    intro s h
    refine ⟨0, ?_⟩
    have h2 : ¬ s < e := by omega
    simp [convertLoop, h2]
  | succ n ih =>
    intro s h
    by_cases hse : s < e
    · have hmod : s % 3600 < 3600 := Nat.mod_lt _ (by norm_num)
      have hnext : e - (roundStart true s + C) ≤ n := by
        simp only [roundStart, if_true]
        omega
      obtain ⟨fuel, hf⟩ := ih _ hnext
      refine ⟨fuel + 1, ?_⟩
      simp only [convertLoop, hse, if_true, alwaysOk]
      rcases hx : convertLoop alwaysOk true C e (roundStart true s + C) fuel
        with _ | v
      · rw [hx] at hf
        simp at hf
      · cases v with
        | error err => rfl
        | ok l => rfl
    · exact ⟨0, by simp [convertLoop, hse]⟩

/-- With round-down set, a 30-minute cadence and window starts inside the
second half of an hour, the loop is stuck at the fixed point 5400 s
(01:30): flooring 5400 to 3600 and adding 1800 gives 5400 again. -/
theorem convertLoop_stuck :
    ∀ fuel, convertLoop alwaysOk true 1800 7200 5400 fuel = none := by
  intro fuel
  induction fuel with
  | zero => rfl
  | succ n ih =>
    show (match convertLoop alwaysOk true 1800 7200
        (roundStart true 5400 + 1800) n with
      | none => none
      | some (Except.error err) => some (Except.error err)
      | some (Except.ok l) => some (Except.ok ((roundStart true 5400,
          roundStart true 5400 + 1800, 0) :: l))) = none
    rw [show roundStart true 5400 + 1800 = 5400 from rfl, ih]

/-- Claim C1 counterexample: with the round-down flag set, the loop of
`convert_pollyxt_file` need not reach the repository end at all - cadence
1800 s and start 6300 s inside span [6300, 7200) walk to the fixed point
5400 and never terminate - and even where it terminates the window count
can differ from ceil((E-S)/C): cadence 3600 s over [3000, 6600) emits two
windows while ceil((6600-3000)/3600) = 1. -/
theorem C1_counterexample :
    ¬ loopTerminates alwaysOk true 1800 6300 7200 ∧
    convertLoop alwaysOk true 3600 6600 3000 2 =
      some (Except.ok [(0, 3600, 0), (3600, 7200, 0)]) ∧
    (6600 - 3000 + 3600 - 1) / 3600 = 1 := by
  refine ⟨?_, rfl, rfl⟩
  rintro ⟨fuel, hf⟩
  cases fuel with
  | zero => simp [convertLoop] at hf
  | succ n =>
    have hred : convertLoop alwaysOk true 1800 7200 6300 (n + 1) =
        (match convertLoop alwaysOk true 1800 7200 5400 n with
          | none => none
          | some (Except.error err) => some (Except.error err)
          | some (Except.ok l) => some (Except.ok ((3600, 5400, 0) :: l))) := rfl
    rw [hred, convertLoop_stuck n] at hf
    simp at hf

/-- Claim C1 (amended): for every repository span [S, E) and every positive
cadence C, the regular-window loop of `convert_pollyxt_file` with the
round-down flag unset terminates and, when there are no data gaps, emits
exactly ceil((E-S)/C) windows; with the round-down flag set it terminates
whenever the cadence is at least one hour (for shorter cadences the floored
start can repeat forever, see the counterexample). -/
theorem C1_regular_window_planner (C s e : Nat) (hC : 0 < C) :
    (∃ l, convertLoop alwaysOk false C e s ((e - s + C - 1) / C) =
        some (Except.ok l) ∧ l.length = (e - s + C - 1) / C) ∧
    (3600 ≤ C → loopTerminates alwaysOk true C s e) := by
  constructor
  · exact planLen C hC e _ s le_rfl
  · intro h3600
    exact roundTermAux C e h3600 (e - s) s le_rfl

/-- Witness for C1_regular_window_planner: cadence 3600 s over [0, 7200)
yields two windows without rounding, and the loop with rounding terminates
from start 30. -/
theorem C1_regular_window_planner_witness :
    (0 : Nat) < 3600 ∧
    (∃ l, convertLoop alwaysOk false 3600 7200 0 ((7200 - 0 + 3600 - 1) / 3600) =
        some (Except.ok l) ∧ l.length = (7200 - 0 + 3600 - 1) / 3600) ∧
    ((3600 : Nat) ≤ 3600 → loopTerminates alwaysOk true 3600 30 7200) :=
  ⟨by decide, (C1_regular_window_planner 3600 0 7200 (by decide)).1,
    (C1_regular_window_planner 3600 30 7200 (by decide)).2⟩

/-- The loop never completes with the per-window gap error: that exception
is caught inside the loop body and every propagated error comes from a
branch that excludes it. -/
theorem convertLoop_never_noMeasurements (fetch : Nat → Nat → Except ConvErr Nat)
    (b : Bool) (C e : Nat) :
    ∀ fuel s, convertLoop fetch b C e s fuel ≠
      some (Except.error ConvErr.noMeasurements) := by
  intro fuel
  induction fuel with
  | zero =>
    intro s
    by_cases h : s < e <;> simp [convertLoop, h]
  | succ n ih =>
    intro s
    by_cases h : s < e
    · simp only [convertLoop, h, if_true]
      rcases hf : fetch (roundStart b s) (roundStart b s + C + 30) with err | a
      · cases err with
        | noMeasurements => exact ih _
        | timeOutsideFile => simp
        | usageError => simp
        | ioFailure code => simp
      · rcases hx : convertLoop fetch b C e (roundStart b s + C) n with _ | v
        · simp
        · cases v with
          | error err2 =>
            intro hcontra
            have h2 : err2 = ConvErr.noMeasurements := by simpa using hcontra
            exact ih _ (by rw [hx, h2])
          | ok l => simp
    · simp [convertLoop, h]

/-- Claim C3: `get_pollyxt_file` raises `NoMeasurementsInTimePeriod` if and
only if no index entry satisfies start ≤ timestamp ≤ end; the loop of
`convert_pollyxt_file` never surfaces that exception to its caller, catches
exactly it per window - continuing from the next interval start - and
propagates every other failure of the window body unmodified. -/
theorem C3_no_measurements_handling (index : List IndexEntry) (ts te : Nat)
    (fetch : Nat → Nat → Except ConvErr Nat) (b : Bool) (C e s fuel : Nat)
    (err : ConvErr) :
    (get_pollyxt_file index ts te = Except.error ConvErr.noMeasurements ↔
      ∀ r ∈ index, ¬(ts ≤ r.timestamp ∧ r.timestamp ≤ te)) ∧
    convertLoop fetch b C e s fuel ≠ some (Except.error ConvErr.noMeasurements) ∧
    (s < e →
      fetch (roundStart b s) (roundStart b s + C + 30) =
        Except.error ConvErr.noMeasurements →
      convertLoop fetch b C e s (fuel + 1) =
        convertLoop fetch b C e (roundStart b s + C) fuel) ∧
    (s < e →
      fetch (roundStart b s) (roundStart b s + C + 30) = Except.error err →
      err ≠ ConvErr.noMeasurements →
      convertLoop fetch b C e s (fuel + 1) = some (Except.error err)) := by
  have hiff : ((selectWindow index ts te).isEmpty = true) ↔
      ∀ r ∈ index, ¬(ts ≤ r.timestamp ∧ r.timestamp ≤ te) := by
    simp [selectWindow, List.isEmpty_iff]
  refine ⟨?_, convertLoop_never_noMeasurements fetch b C e fuel s, ?_, ?_⟩
  · by_cases hemp : (selectWindow index ts te).isEmpty = true
    · have h1 : get_pollyxt_file index ts te = Except.error ConvErr.noMeasurements := by
        unfold get_pollyxt_file
        simp [hemp]
      rw [h1]
      exact ⟨fun _ => hiff.mp hemp, fun _ => rfl⟩
    · have hemp2 : (selectWindow index ts te).isEmpty = false := by
        cases hb : (selectWindow index ts te).isEmpty
        · rfl
        · exact absurd hb hemp
      have h1 : get_pollyxt_file index ts te = Except.ok (selectWindow index ts te) := by
        unfold get_pollyxt_file
        simp [hemp2]
      rw [h1]
      constructor
      · intro hcontra
        cases hcontra
      · intro hall
        exact absurd (hiff.mpr hall) hemp
  · intro hse hf
    simp only [convertLoop, hse, if_true, hf]
  · intro hse hf hne
    cases err with
    | noMeasurements => exact absurd rfl hne
    | timeOutsideFile => simp [convertLoop, hse, hf]
    | usageError => simp [convertLoop, hse, hf]
    | ioFailure code => simp [convertLoop, hse, hf]

/-- Witness for C3_no_measurements_handling: an index whose single entry at
timestamp 50 misses the window [0, 10]; a fetch that always reports the
gap error is skipped from window to window (never surfacing), and a fetch
failing with an I/O-style error propagates that error unmodified. -/
theorem C3_no_measurements_handling_witness :
    get_pollyxt_file [⟨50, 0, 0⟩] 0 10 = Except.error ConvErr.noMeasurements ∧
    convertLoop (fun _ _ => Except.error ConvErr.noMeasurements) false 60 10 0 3 ≠
      some (Except.error ConvErr.noMeasurements) ∧
    ((0 : Nat) < 10) ∧
    convertLoop (fun _ _ => Except.error ConvErr.noMeasurements) false 60 10 0 3 =
      convertLoop (fun _ _ => Except.error ConvErr.noMeasurements) false 60 10 60 2 ∧
    ConvErr.ioFailure 5 ≠ ConvErr.noMeasurements ∧
    convertLoop (fun _ _ => Except.error (ConvErr.ioFailure 5)) false 60 10 0 3 =
      some (Except.error (ConvErr.ioFailure 5)) := by
  have h1 := C3_no_measurements_handling [⟨50, 0, 0⟩] 0 10
    (fun _ _ => Except.error ConvErr.noMeasurements) false 60 10 0 2
    ConvErr.noMeasurements
  have h2 := C3_no_measurements_handling [⟨50, 0, 0⟩] 0 10
    (fun _ _ => Except.error (ConvErr.ioFailure 5)) false 60 10 0 2
    (ConvErr.ioFailure 5)
  have h3 := C3_no_measurements_handling [⟨50, 0, 0⟩] 0 10
    (fun _ _ => Except.error ConvErr.noMeasurements) false 60 10 0 3
    ConvErr.noMeasurements
  refine ⟨?_, h3.2.1, by decide, ?_, by decide, ?_⟩
  · refine h1.1.mpr ?_
    intro r hr
    rcases List.mem_cons.mp hr with hr1 | hr1
    · rw [hr1]
      decide
    · simp at hr1
  · exact h1.2.2.1 (by decide) rfl
  · exact h2.2.2.2 (by decide) rfl (by decide)

/-- Claim C9: a minutes-only `XX:MM` start override resolves, relative to
the repository's first sample, to the nearest occurrence of that minute not
in the past (keeping the seconds-within-minute field, as
`datetime.replace(minute=...)` does); for override `XX:30` and a first
sample at 01:50 (6600 s) the resolved start is 02:30 (9000 s), not 01:30
(5400 s), and the first emitted window starts there. -/
theorem C9_minutes_only_override (today m : Nat) (hm : m < 60) :
    (today ≤ resolveMinutesOnly today m ∧
     resolveMinutesOnly today m % 60 = today % 60 ∧
     resolveMinutesOnly today m / 60 % 60 = m ∧
     (∀ u, today ≤ u → u % 60 = today % 60 → u / 60 % 60 = m →
        resolveMinutesOnly today m ≤ u)) ∧
    (resolveMinutesOnly 6600 30 = 9000 ∧
     resolveMinutesOnly 6600 30 ≠ 5400 ∧
     convertLoop alwaysOk false 3600 13800 (resolveMinutesOnly 6600 30) 2 =
       some (Except.ok [(9000, 12600, 0), (12600, 16200, 0)])) := by
  constructor
  · unfold resolveMinutesOnly pyReplaceMinute
    split_ifs with h
    · refine ⟨by omega, by omega, by omega, ?_⟩
      intro u h1 h2 h3
      omega
    · refine ⟨by omega, by omega, by omega, ?_⟩
      intro u h1 h2 h3
      omega
  · exact ⟨rfl, by decide, rfl⟩

/-- Witness for C9_minutes_only_override at the claim's concrete instance:
override minute 30, first sample at 6600 s (01:50). -/
theorem C9_minutes_only_override_witness :
    (30 : Nat) < 60 ∧
    (6600 : Nat) ≤ resolveMinutesOnly 6600 30 ∧
    resolveMinutesOnly 6600 30 / 60 % 60 = 30 ∧
    resolveMinutesOnly 6600 30 ≤ 9000 :=
  ⟨by decide, (C9_minutes_only_override 6600 30 (by decide)).1.1,
    (C9_minutes_only_override 6600 30 (by decide)).1.2.2.1,
    (C9_minutes_only_override 6600 30 (by decide)).1.2.2.2 9000 (by decide)
      (by decide) (by decide)⟩
